import Mathlib

/-!
# Session / uplink state machine of `src/main.cpp`

A shallow embedding of the application callbacks of the ESP32 + SX1262 LoRaWAN
test sketch:

* `lorawan_has_joined_handler` (lines 124-136)
* `lorawan_rx_handler` (lines 142-180)
* `lorawan_confirm_class_handler` (lines 182-190)
* `send_lora_frame` (lines 192-223)
* `tx_lora_periodic_handler` (lines 227-234)
* `timers_init` (lines 240-247)

The global variables `counter`, `m_lora_app_data` (with the array
`m_lora_app_data_buffer` behind its pointer) and `appTimer` become the fields of
`State`.  Every call into the MAC library or the timer library is appended to
`State.trace`, together with the value of `counter` and of the timer's armed
flag at the moment of the call, so that the order of the calls and of the
assignments around them can be stated.  Values that the MAC returns
(`lmh_join_status_get`, `lmh_send`) are inputs of the handler that asks for them.
`Serial` output is not part of the embedding.

The macro `LORAWAN_APP_PORT` comes from the library header and is a parameter of
every function that uses it.
-/

namespace LoRaWanApp

/-! ## Constants of `main.cpp` -/

/-- Size of the static array `m_lora_app_data_buffer` (line 12). -/
def LORAWAN_APP_DATA_BUFF_SIZE : Nat := 64

/-- Transmission period in milliseconds (line 13). -/
def LORAWAN_APP_TX_DUTYCYCLE : Nat := 30000

/-! ## Types of the library header -/

/-- Modelled from the spec: the enum `DeviceClass_t` of the library header, which is
not under src; the spec's DeviceClass is the enum {A, B, C}. -/
inductive DeviceClass_t
  | CLASS_A
  | CLASS_B
  | CLASS_C
  deriving DecidableEq, Repr

/-- Modelled from the spec: the enum `lmh_join_status` of the library header, which
is not under src; the spec's JoinStatus is {NotJoined, Joining, Joined} and the
code compares against `LMH_SET`, the joined value. -/
inductive lmh_join_status
  | LMH_RESET
  | LMH_ONGOING
  | LMH_SET
  deriving DecidableEq, Repr

/-- Modelled from the spec: the enum `lmh_error_status` of the library header, which
is not under src; the spec's ResultCode has success, busy and error. -/
inductive lmh_error_status
  | LMH_SUCCESS
  | LMH_BUSY
  | LMH_ERROR
  deriving DecidableEq, Repr

/-- Modelled from the spec: the enum `lmh_confirm` of the library header, which is
not under src; a send is confirmed or unconfirmed. -/
inductive lmh_confirm
  | LMH_UNCONFIRMED_MSG
  | LMH_CONFIRMED_MSG
  deriving DecidableEq, Repr

/-- The struct `lmh_app_data_t`, initialised at line 52 as
`{buffer, buffsize, port, rssi, snr}`.  The field `buffer` is a pointer in the
source; here it is the byte found at each index behind that pointer. -/
structure lmh_app_data_t where
  buffer : Nat → Nat
  buffsize : Nat
  port : Nat
  rssi : Int
  snr : Int

/-- Modelled from the spec: the struct `TimerEvent_t` of the library header, which is
not under src.  `timerNum` and `oneShot` are the fields `timers_init` assigns;
`value` and `armed` are the spec's DutyCycleTimer {period, armed}. -/
structure TimerEvent_t where
  timerNum : Nat
  oneShot : Bool
  value : Nat
  armed : Bool
  deriving DecidableEq, Repr

/-! ## The trace of library calls -/

/-- One call into the MAC library or the timer library.  `lmh_send` records what
its pointer argument shows: the port, the size and the first `buffsize` bytes. -/
inductive Call
  | lmh_class_request (Class : DeviceClass_t)
  | TimerSetValue (value : Nat)
  | TimerStart
  | lmh_join_status_get
  | lmh_send (port buffsize : Nat) (data : List Nat) (confirm : lmh_confirm)
  deriving DecidableEq, Repr

/-- A logged call with the value of `counter` and of the timer's armed flag at the
moment the call is made. -/
structure Entry where
  call : Call
  counter : Nat
  armed : Bool
  deriving DecidableEq, Repr

/-- The globals of `main.cpp` (lines 47-52), a flag that records a store outside
`m_lora_app_data_buffer`, and the trace of library calls. -/
structure State where
  counter : Nat
  m_lora_app_data : lmh_app_data_t
  appTimer : TimerEvent_t
  oob : Bool
  trace : List Entry

/-- Append a call to the trace, with the snapshot taken before the call acts. -/
def State.log (s : State) (c : Call) : State :=
  { s with trace := s.trace ++ [⟨c, s.counter, s.appTimer.armed⟩] }

/-! ## Library operations -/

/-- The call `lmh_class_request(Class)`: asynchronous, it only reaches the MAC. -/
def lmh_class_request (s : State) (Class : DeviceClass_t) : State :=
  s.log (.lmh_class_request Class)

/-- Modelled from the spec: `TimerSetValue(&appTimer, value)` of the timer library,
which is not under src; it sets the period of the timer. -/
def TimerSetValue (s : State) (value : Nat) : State :=
  let s := s.log (.TimerSetValue value)
  { s with appTimer := { s.appTimer with value := value } }

/-- Modelled from the spec: `TimerStart(&appTimer)` of the timer library, which is
not under src; it arms the timer. -/
def TimerStart (s : State) : State :=
  let s := s.log .TimerStart
  { s with appTimer := { s.appTimer with armed := true } }

/-- The call `lmh_join_status_get()`; the MAC answers `js`. -/
def lmh_join_status_get (s : State) (js : lmh_join_status) : State × lmh_join_status :=
  (s.log .lmh_join_status_get, js)

/-- The bytes `buffer[0 .. buffsize-1]` of a frame. -/
def lmh_app_data_t.payload (d : lmh_app_data_t) : List Nat :=
  (List.range d.buffsize).map d.buffer

/-- The call `lmh_send(&m_lora_app_data, confirm)`; the MAC answers `r`. -/
def lmh_send (s : State) (confirm : lmh_confirm) (r : lmh_error_status) :
    State × lmh_error_status :=
  (s.log (.lmh_send s.m_lora_app_data.port s.m_lora_app_data.buffsize
    s.m_lora_app_data.payload confirm), r)

/-- The store `m_lora_app_data.buffer[i] = v` into the array of
`LORAWAN_APP_DATA_BUFF_SIZE` bytes; a store past the array sets `oob`. -/
def buffer_store (s : State) (i v : Nat) : State :=
  if i < LORAWAN_APP_DATA_BUFF_SIZE then
    { s with m_lora_app_data :=
        { s.m_lora_app_data with
            buffer := fun j => if j = i then v else s.m_lora_app_data.buffer j } }
  else
    { s with oob := true }

/-! ## The functions of `main.cpp` -/

/-- Lines 124-136. -/
def lorawan_has_joined_handler (s : State) : State :=
  let s := lmh_class_request s .CLASS_A
  let s := TimerSetValue s LORAWAN_APP_TX_DUTYCYCLE
  TimerStart s

/-- Lines 142-180.  The case labels are `3` and `LORAWAN_APP_PORT`, in that order. -/
def lorawan_rx_handler (LORAWAN_APP_PORT : Nat) (s : State) (app_data : lmh_app_data_t) :
    State :=
  if app_data.port = 3 then
    if app_data.buffsize = 1 then
      match app_data.buffer 0 with
      | 0 => lmh_class_request s .CLASS_A
      | 1 => lmh_class_request s .CLASS_B
      | 2 => lmh_class_request s .CLASS_C
      | _ => s
    else s
  else if app_data.port = LORAWAN_APP_PORT then s
  else s

/-- Lines 182-190.  `Class` is only printed; the result of `lmh_send` is dropped. -/
def lorawan_confirm_class_handler (LORAWAN_APP_PORT : Nat) (s : State)
    (_Class : DeviceClass_t) (r : lmh_error_status) : State :=
  let s := { s with m_lora_app_data := { s.m_lora_app_data with buffsize := 0 } }
  let s := { s with m_lora_app_data := { s.m_lora_app_data with port := LORAWAN_APP_PORT } }
  (lmh_send s .LMH_UNCONFIRMED_MSG r).1

/-- Lines 192-223.  `i` is a `uint32_t`, `buffsize` and `counter` are `uint8_t`. -/
def send_lora_frame (LORAWAN_APP_PORT : Nat) (s : State) (js : lmh_join_status)
    (r : lmh_error_status) : State :=
  let q := lmh_join_status_get s js
  let s := q.1
  if q.2 ≠ .LMH_SET then s
  else
    let i : Nat := 0
    let s := { s with m_lora_app_data := { s.m_lora_app_data with port := LORAWAN_APP_PORT } }
    let s := buffer_store s i s.counter
    let i := (i + 1) % 2 ^ 32
    let s := { s with m_lora_app_data := { s.m_lora_app_data with buffsize := i % 256 } }
    let s := { s with counter := (s.counter + 1) % 256 }
    let s := if s.counter ≥ 100 then { s with counter := 0 } else s
    let e := lmh_send s .LMH_UNCONFIRMED_MSG r
    let s := e.1
    let _error := e.2
    s

/-- Lines 227-234. -/
def tx_lora_periodic_handler (LORAWAN_APP_PORT : Nat) (s : State) (js : lmh_join_status)
    (r : lmh_error_status) : State :=
  let s := TimerSetValue s LORAWAN_APP_TX_DUTYCYCLE
  let s := TimerStart s
  let s := send_lora_frame LORAWAN_APP_PORT s js r
  TimerStart s

/-- Lines 240-247: the two assignments of `timers_init`; it returns 0. -/
def timers_init (s : State) : State × Nat :=
  let s := { s with appTimer := { s.appTimer with timerNum := 3 } }
  let s := { s with appTimer := { s.appTimer with oneShot := true } }
  (s, 0)

/-- The globals after static initialisation (lines 47-52): `counter = 0`, the
array zeroed, `m_lora_app_data = {buffer, 0, 0, 0, 0}`, the timer zeroed. -/
def static_init : State :=
  { counter := 0
    m_lora_app_data := { buffer := fun _ => 0, buffsize := 0, port := 0, rssi := 0, snr := 0 }
    appTimer := { timerNum := 0, oneShot := false, value := 0, armed := false }
    oob := false
    trace := [] }

/-- The state in which the first callback runs: static initialisation followed by
the `timers_init` of `setup`. -/
def initial : State := (timers_init static_init).1

/-! ## Events delivered to the application -/

/-- Modelled from the spec: the expiry of the one-shot timer, which the timer library
(not under src) delivers: the armed flag is cleared and the callback registered by
`timers_init`, `tx_lora_periodic_handler`, runs. -/
def timer_expired (LORAWAN_APP_PORT : Nat) (s : State) (js : lmh_join_status)
    (r : lmh_error_status) : State :=
  tx_lora_periodic_handler LORAWAN_APP_PORT
    { s with appTimer := { s.appTimer with armed := false } } js r

/-- The four entry points, each with the values the MAC returns while it runs. -/
inductive Event
  | joined
  | downlink (app_data : lmh_app_data_t)
  | classConfirmed (Class : DeviceClass_t) (r : lmh_error_status)
  | tick (js : lmh_join_status) (r : lmh_error_status)

/-- Deliver one event. -/
def step (LORAWAN_APP_PORT : Nat) (s : State) : Event → State
  | .joined => lorawan_has_joined_handler s
  | .downlink app_data => lorawan_rx_handler LORAWAN_APP_PORT s app_data
  | .classConfirmed Class r => lorawan_confirm_class_handler LORAWAN_APP_PORT s Class r
  | .tick js r => timer_expired LORAWAN_APP_PORT s js r

/-- Deliver a sequence of events, one after the other. -/
def run (LORAWAN_APP_PORT : Nat) (s : State) (evs : List Event) : State :=
  evs.foldl (step LORAWAN_APP_PORT) s

/-! ## Observations on a trace -/

/-- The calls of a trace, without the snapshots. -/
def calls (tr : List Entry) : List Call := tr.map Entry.call

/-- Whether a call is an `lmh_send`. -/
def Call.isSend : Call → Bool
  | .lmh_send _ _ _ _ => true
  | _ => false

/-- Whether a call is an `lmh_class_request`. -/
def Call.isClassRequest : Call → Bool
  | .lmh_class_request _ => true
  | _ => false

/-- Whether a call is a `TimerStart`. -/
def Call.isTimerStart : Call → Bool
  | .TimerStart => true
  | _ => false

/-- The `lmh_send` calls of a trace, in order. -/
def submissions (tr : List Entry) : List Call := (calls tr).filter Call.isSend

/-- The `lmh_class_request` calls of a trace, in order. -/
def classRequests (tr : List Entry) : List Call := (calls tr).filter Call.isClassRequest

/-- For every `TimerStart` of a trace, in order, whether the timer was already
armed when it was issued. -/
def startFlags (tr : List Entry) : List Bool :=
  (tr.filter fun e => e.call.isTimerStart).map Entry.armed

/-- The entries a handler added: what follows the first `n` entries. -/
def added (s s' : State) : List Entry := s'.trace.drop s.trace.length

/-- The value `counter` has after lines 212-216 when it was `c` before. -/
def next_counter (c : Nat) : Nat :=
  if (c + 1) % 256 ≥ 100 then 0 else (c + 1) % 256

/-- The class selector byte of a downlink on port 3: the byte that the inner switch
of `lorawan_rx_handler` (lines 155-165) maps to each class. -/
def selectorOf : DeviceClass_t → Nat
  | .CLASS_A => 0
  | .CLASS_B => 1
  | .CLASS_C => 2

/-- Whether an event is the join-completed callback. -/
def Event.isJoined : Event → Bool
  | .joined => true
  | _ => false

/-- The armed flags seen by the `TimerStart` calls of a sequence of events without
a join: two per tick, the first on a timer that has just expired, the second on
the timer the first one armed; none for a downlink or a class confirmation. -/
def expectedStartFlags : List Event → List Bool
  | [] => []
  | .tick _ _ :: evs => false :: true :: expectedStartFlags evs
  | _ :: evs => expectedStartFlags evs

/-- A received frame with the given port, payload bytes and link metrics. -/
def downlink_frame (port : Nat) (bytes : List Nat) (rssi snr : Int) : lmh_app_data_t :=
  { buffer := fun j => bytes.getD j 0, buffsize := bytes.length, port := port,
    rssi := rssi, snr := snr }

/-- The invariant of the uplink data: `counter` below 100, a frame of 0 or 1 bytes,
and no store outside the payload array so far. -/
def Inv (s : State) : Prop :=
  s.counter < 100 ∧ (s.m_lora_app_data.buffsize = 0 ∨ s.m_lora_app_data.buffsize = 1) ∧
    s.oob = false

/-- What a trace entry means for the timer and the send attempt: a `TimerStart`
with the armed flag it found, the status query that opens a send attempt, or a
submission, both with the armed flag at that moment. -/
inductive Mark
  | start (alreadyArmed : Bool)
  | query (armed : Bool)
  | send (armed : Bool)
  deriving DecidableEq, Repr

/-- The mark of one entry; class requests and `TimerSetValue` have none. -/
def Entry.mark (e : Entry) : Option Mark :=
  match e.call with
  | .TimerStart => some (.start e.armed)
  | .lmh_join_status_get => some (.query e.armed)
  | .lmh_send _ _ _ _ => some (.send e.armed)
  | _ => none

/-- The marks of a trace, in order. -/
def marks (tr : List Entry) : List Mark := tr.filterMap Entry.mark

/-- The marks of a sequence of events without a join, delivered while the timer is
armed: a tick starts the expired timer, then makes its send attempt with the timer
armed (the status query and, when joined, the submission), then starts the armed
timer again; a class confirmation submits with the timer armed; a downlink leaves
no mark. -/
def expectedMarks : List Event → List Mark
  | [] => []
  | .tick .LMH_SET _ :: evs =>
    .start false :: .query true :: .send true :: .start true :: expectedMarks evs
  | .tick _ _ :: evs => .start false :: .query true :: .start true :: expectedMarks evs
  | .classConfirmed _ _ :: evs => .send true :: expectedMarks evs
  | _ :: evs => expectedMarks evs

/-- The calls of a trace, each with the armed flag it found. -/
def callsArmed (tr : List Entry) : List (Call × Bool) := tr.map fun e => (e.call, e.armed)

/-! ## Basic lemmas -/

theorem submissions_append (a b : List Entry) :
    submissions (a ++ b) = submissions a ++ submissions b := by
  simp [submissions, calls]

theorem send_lora_frame_not_joined (P : Nat) (s : State) (js : lmh_join_status)
    (r : lmh_error_status) (hjs : js ≠ .LMH_SET) :
    send_lora_frame P s js r = s.log .lmh_join_status_get := by
  simp [send_lora_frame, lmh_join_status_get, hjs]

theorem timer_expired_not_joined (P : Nat) (s : State) (js : lmh_join_status)
    (r : lmh_error_status) (hjs : js ≠ .LMH_SET) :
    let s' := timer_expired P s js r
    submissions s'.trace = submissions s.trace ∧ s'.counter = s.counter ∧
      s'.m_lora_app_data = s.m_lora_app_data := by
  simp [timer_expired, tx_lora_periodic_handler, send_lora_frame_not_joined _ _ _ _ hjs,
    TimerSetValue, TimerStart, State.log, submissions, calls, Call.isSend]

theorem next_counter_lt (c : Nat) : next_counter c < 100 := by
  unfold next_counter
  split <;> omega

theorem next_counter_mod (c : Nat) (hc : c < 100) : next_counter c = (c + 1) % 100 := by
  unfold next_counter
  split <;> omega

theorem send_lora_frame_joined (P : Nat) (s : State) (r : lmh_error_status) :
    send_lora_frame P s .LMH_SET r =
      { counter := next_counter s.counter
        m_lora_app_data :=
          { s.m_lora_app_data with
              port := P
              buffer := fun j => if j = 0 then s.counter else s.m_lora_app_data.buffer j
              buffsize := 1 }
        appTimer := s.appTimer
        oob := s.oob
        trace := s.trace ++
          [⟨.lmh_join_status_get, s.counter, s.appTimer.armed⟩,
           ⟨.lmh_send P 1 [s.counter] .LMH_UNCONFIRMED_MSG, next_counter s.counter,
             s.appTimer.armed⟩] } := by
  by_cases h : (s.counter + 1) % 256 ≥ 100 <;>
    simp [send_lora_frame, lmh_join_status_get, lmh_send, buffer_store, State.log,
      LORAWAN_APP_DATA_BUFF_SIZE, lmh_app_data_t.payload, next_counter, h, List.range_succ]

theorem tx_lora_periodic_handler_joined (P : Nat) (s : State) (r : lmh_error_status) :
    tx_lora_periodic_handler P s .LMH_SET r =
      { counter := next_counter s.counter
        m_lora_app_data :=
          { s.m_lora_app_data with
              port := P
              buffer := fun j => if j = 0 then s.counter else s.m_lora_app_data.buffer j
              buffsize := 1 }
        appTimer := { s.appTimer with value := LORAWAN_APP_TX_DUTYCYCLE, armed := true }
        oob := s.oob
        trace := s.trace ++
          [⟨.TimerSetValue LORAWAN_APP_TX_DUTYCYCLE, s.counter, s.appTimer.armed⟩,
           ⟨.TimerStart, s.counter, s.appTimer.armed⟩,
           ⟨.lmh_join_status_get, s.counter, true⟩,
           ⟨.lmh_send P 1 [s.counter] .LMH_UNCONFIRMED_MSG, next_counter s.counter, true⟩,
           ⟨.TimerStart, next_counter s.counter, true⟩] } := by
  simp [tx_lora_periodic_handler, send_lora_frame_joined, TimerSetValue, TimerStart, State.log]

theorem tx_lora_periodic_handler_not_joined (P : Nat) (s : State) (js : lmh_join_status)
    (r : lmh_error_status) (hjs : js ≠ .LMH_SET) :
    tx_lora_periodic_handler P s js r =
      { s with
        appTimer := { s.appTimer with value := LORAWAN_APP_TX_DUTYCYCLE, armed := true }
        trace := s.trace ++
          [⟨.TimerSetValue LORAWAN_APP_TX_DUTYCYCLE, s.counter, s.appTimer.armed⟩,
           ⟨.TimerStart, s.counter, s.appTimer.armed⟩,
           ⟨.lmh_join_status_get, s.counter, true⟩,
           ⟨.TimerStart, s.counter, true⟩] } := by
  simp [tx_lora_periodic_handler, send_lora_frame_not_joined _ _ _ _ hjs, TimerSetValue,
    TimerStart, State.log]

theorem lorawan_has_joined_handler_eq (s : State) :
    lorawan_has_joined_handler s =
      { s with
        appTimer := { s.appTimer with value := LORAWAN_APP_TX_DUTYCYCLE, armed := true }
        trace := s.trace ++
          [⟨.lmh_class_request .CLASS_A, s.counter, s.appTimer.armed⟩,
           ⟨.TimerSetValue LORAWAN_APP_TX_DUTYCYCLE, s.counter, s.appTimer.armed⟩,
           ⟨.TimerStart, s.counter, s.appTimer.armed⟩] } := by
  simp [lorawan_has_joined_handler, lmh_class_request, TimerSetValue, TimerStart, State.log]

theorem lorawan_confirm_class_handler_eq (P : Nat) (s : State) (c : DeviceClass_t)
    (r : lmh_error_status) :
    lorawan_confirm_class_handler P s c r =
      { s with
        m_lora_app_data := { s.m_lora_app_data with buffsize := 0, port := P }
        trace := s.trace ++
          [⟨.lmh_send P 0 [] .LMH_UNCONFIRMED_MSG, s.counter, s.appTimer.armed⟩] } := by
  simp [lorawan_confirm_class_handler, lmh_send, State.log, lmh_app_data_t.payload]

theorem run_nil (P : Nat) (s : State) : run P s [] = s := rfl

theorem run_cons (P : Nat) (s : State) (e : Event) (evs : List Event) :
    run P s (e :: evs) = run P (step P s e) evs := rfl

theorem run_append (P : Nat) (s : State) (a b : List Event) :
    run P s (a ++ b) = run P (run P s a) b := by
  simp [run, List.foldl_append]

theorem added_of_trace (s s' : State) (l : List Entry) (h : s'.trace = s.trace ++ l) :
    added s s' = l := by
  simp [added, h]

theorem timer_expired_joined_counter (P : Nat) (s : State) (r : lmh_error_status) :
    (timer_expired P s .LMH_SET r).counter = next_counter s.counter := by
  simp [timer_expired, tx_lora_periodic_handler_joined]

theorem timer_expired_joined_trace (P : Nat) (s : State) (r : lmh_error_status) :
    (timer_expired P s .LMH_SET r).trace = s.trace ++
      [⟨.TimerSetValue LORAWAN_APP_TX_DUTYCYCLE, s.counter, false⟩,
       ⟨.TimerStart, s.counter, false⟩,
       ⟨.lmh_join_status_get, s.counter, true⟩,
       ⟨.lmh_send P 1 [s.counter] .LMH_UNCONFIRMED_MSG, next_counter s.counter, true⟩,
       ⟨.TimerStart, next_counter s.counter, true⟩] := by
  simp [timer_expired, tx_lora_periodic_handler_joined]

theorem run_joined_ticks (P : Nat) (s : State) (r : lmh_error_status) (hc : s.counter < 100)
    (n : Nat) :
    (run P s (List.replicate n (Event.tick .LMH_SET r))).counter = (s.counter + n) % 100 ∧
    submissions (run P s (List.replicate n (Event.tick .LMH_SET r))).trace =
      submissions s.trace ++
        (List.range n).map fun i =>
          Call.lmh_send P 1 [(s.counter + i) % 100] .LMH_UNCONFIRMED_MSG := by
  induction n with
  | zero => simp [run_nil, Nat.mod_eq_of_lt hc]
  | succ n ih =>
    rw [List.replicate_succ', run_append, run_cons, run_nil]
    simp only [step]
    refine ⟨?_, ?_⟩
    · rw [timer_expired_joined_counter, ih.1, next_counter_mod _ (Nat.mod_lt _ (by decide))]
      omega
    · rw [timer_expired_joined_trace, submissions_append, ih.2, ih.1, List.range_succ]
      simp [submissions, calls, Call.isSend]

theorem selectorOf_injective (c c' : DeviceClass_t) (h : selectorOf c = selectorOf c') :
    c = c' := by
  cases c <;> cases c' <;> simp [selectorOf] at h ⊢

theorem selectorOf_le (c : DeviceClass_t) : selectorOf c ≤ 2 := by
  cases c <;> simp [selectorOf]

theorem selectorOf_surj (b : Nat) (hb : b ≤ 2) : ∃ c, b = selectorOf c := by
  rcases b with _ | _ | _ | b
  · exact ⟨.CLASS_A, rfl⟩
  · exact ⟨.CLASS_B, rfl⟩
  · exact ⟨.CLASS_C, rfl⟩
  · omega

theorem lorawan_rx_handler_request (P : Nat) (s : State) (d : lmh_app_data_t)
    (c : DeviceClass_t) (h : d.port = 3 ∧ d.buffsize = 1 ∧ d.buffer 0 = selectorOf c) :
    lorawan_rx_handler P s d = lmh_class_request s c := by
  obtain ⟨hp, hs, hb⟩ := h
  cases c <;> simp [lorawan_rx_handler, hp, hs, hb, selectorOf]

theorem lorawan_rx_handler_skip (P : Nat) (s : State) (d : lmh_app_data_t)
    (h : ¬ (d.port = 3 ∧ d.buffsize = 1 ∧ d.buffer 0 ≤ 2)) :
    lorawan_rx_handler P s d = s := by
  unfold lorawan_rx_handler
  by_cases hp : d.port = 3
  · by_cases hs : d.buffsize = 1
    · have hb : ¬ d.buffer 0 ≤ 2 := fun hb => h ⟨hp, hs, hb⟩
      rw [if_pos hp, if_pos hs]
      generalize d.buffer 0 = b at hb
      rcases b with _ | _ | _ | b
      · omega
      · omega
      · omega
      · rfl
    · rw [if_pos hp, if_neg hs]
  · rw [if_neg hp]
    split <;> rfl

theorem added_self (s : State) : added s s = [] := by
  simp [added]

theorem added_lmh_class_request (s : State) (c : DeviceClass_t) :
    added s (lmh_class_request s c) =
      [⟨.lmh_class_request c, s.counter, s.appTimer.armed⟩] := by
  simp [added, lmh_class_request, State.log]

theorem lorawan_rx_handler_cases (P : Nat) (s : State) (d : lmh_app_data_t) :
    lorawan_rx_handler P s d = s ∨ ∃ c, lorawan_rx_handler P s d = lmh_class_request s c := by
  by_cases h : d.port = 3 ∧ d.buffsize = 1 ∧ d.buffer 0 ≤ 2
  · obtain ⟨c, hc⟩ := selectorOf_surj _ h.2.2
    exact Or.inr ⟨c, lorawan_rx_handler_request P s d c ⟨h.1, h.2.1, hc⟩⟩
  · exact Or.inl (lorawan_rx_handler_skip P s d h)

theorem startFlags_append (a b : List Entry) :
    startFlags (a ++ b) = startFlags a ++ startFlags b := by
  simp [startFlags]

theorem timer_expired_startFlags (P : Nat) (s : State) (js : lmh_join_status)
    (r : lmh_error_status) :
    startFlags (timer_expired P s js r).trace = startFlags s.trace ++ [false, true] ∧
      (timer_expired P s js r).appTimer.armed = true := by
  by_cases hjs : js = .LMH_SET
  · subst hjs
    simp [timer_expired, tx_lora_periodic_handler_joined, startFlags, Call.isTimerStart]
  · simp [timer_expired, tx_lora_periodic_handler_not_joined _ _ _ _ hjs, startFlags,
      Call.isTimerStart]

theorem step_startFlags (P : Nat) (s : State) (e : Event) (he : e.isJoined = false)
    (ha : s.appTimer.armed = true) :
    startFlags (step P s e).trace = startFlags s.trace ++ expectedStartFlags [e] ∧
      (step P s e).appTimer.armed = true := by
  cases e with
  | joined => simp [Event.isJoined] at he
  | downlink d =>
    simp only [step, expectedStartFlags, List.append_nil]
    rcases lorawan_rx_handler_cases P s d with h | ⟨c, h⟩
    · rw [h]; exact ⟨rfl, ha⟩
    · rw [h]
      simp [lmh_class_request, State.log, startFlags, Call.isTimerStart, ha]
  | classConfirmed c r =>
    simp [step, expectedStartFlags, lorawan_confirm_class_handler_eq, startFlags,
      Call.isTimerStart, ha]
  | tick js r =>
    simp only [step, expectedStartFlags]
    exact timer_expired_startFlags P s js r

theorem expectedStartFlags_cons (e : Event) (evs : List Event) :
    expectedStartFlags (e :: evs) = expectedStartFlags [e] ++ expectedStartFlags evs := by
  cases e <;> simp [expectedStartFlags]

theorem run_startFlags (P : Nat) (evs : List Event) (s : State)
    (hevs : ∀ e ∈ evs, e.isJoined = false) (ha : s.appTimer.armed = true) :
    startFlags (run P s evs).trace = startFlags s.trace ++ expectedStartFlags evs ∧
      (run P s evs).appTimer.armed = true := by
  induction evs generalizing s with
  | nil => simp [run_nil, expectedStartFlags, ha]
  | cons e evs ih =>
    have h1 := step_startFlags P s e (hevs e (List.mem_cons_self _ _)) ha
    have h2 := ih (step P s e) (fun u hu => hevs u (List.mem_cons_of_mem _ hu)) h1.2
    rw [run_cons, h2.1, h1.1, expectedStartFlags_cons e evs, List.append_assoc]
    exact ⟨rfl, h2.2⟩

theorem step_Inv (P : Nat) (s : State) (e : Event) (h : Inv s) : Inv (step P s e) := by
  obtain ⟨hc, hb, ho⟩ := h
  cases e with
  | joined =>
    simp only [step, lorawan_has_joined_handler_eq]
    exact ⟨hc, hb, ho⟩
  | downlink d =>
    simp only [step]
    rcases lorawan_rx_handler_cases P s d with h | ⟨c, h⟩
    · rw [h]; exact ⟨hc, hb, ho⟩
    · rw [h]; exact ⟨hc, hb, ho⟩
  | classConfirmed c r =>
    simp only [step, lorawan_confirm_class_handler_eq]
    exact ⟨hc, Or.inl rfl, ho⟩
  | tick js r =>
    simp only [step, timer_expired]
    by_cases hjs : js = .LMH_SET
    · subst hjs
      rw [tx_lora_periodic_handler_joined]
      exact ⟨next_counter_lt _, Or.inr rfl, ho⟩
    · rw [tx_lora_periodic_handler_not_joined _ _ _ _ hjs]
      exact ⟨hc, hb, ho⟩

theorem run_Inv (P : Nat) (evs : List Event) (s : State) (h : Inv s) : Inv (run P s evs) := by
  induction evs generalizing s with
  | nil => exact h
  | cons e evs ih => exact ih (step P s e) (step_Inv P s e h)

/-! ## C1 -/

/-- Claim C1: when the MAC reports a join status other than joined, `send_lora_frame`
only asks for the status: it calls `lmh_send` zero times and leaves `counter` and
the uplink frame (port, size, payload bytes) as they were; hence any sequence of
timer ticks during which the device is not joined adds no submission and changes
neither the counter nor the frame. -/
theorem C1_not_joined_submits_nothing (P : Nat) (s : State) (js : lmh_join_status)
    (r : lmh_error_status) (hjs : js ≠ .LMH_SET)
    (ticks : List (lmh_join_status × lmh_error_status))
    (hticks : ∀ t ∈ ticks, t.1 ≠ .LMH_SET) :
    (calls (added s (send_lora_frame P s js r)) = [.lmh_join_status_get] ∧
      submissions (send_lora_frame P s js r).trace = submissions s.trace ∧
      (send_lora_frame P s js r).counter = s.counter ∧
      (send_lora_frame P s js r).m_lora_app_data = s.m_lora_app_data) ∧
    (submissions (run P s (ticks.map fun t => Event.tick t.1 t.2)).trace =
        submissions s.trace ∧
      (run P s (ticks.map fun t => Event.tick t.1 t.2)).counter = s.counter ∧
      (run P s (ticks.map fun t => Event.tick t.1 t.2)).m_lora_app_data =
        s.m_lora_app_data) := by
  refine ⟨?_, ?_⟩
  · rw [send_lora_frame_not_joined _ _ _ _ hjs]
    simp [added, calls, State.log, submissions, Call.isSend]
  · clear hjs
    induction ticks generalizing s with
    | nil => simp [run_nil]
    | cons t ts ih =>
      have ht : t.1 ≠ .LMH_SET := hticks t (List.mem_cons_self _ _)
      have hts : ∀ u ∈ ts, u.1 ≠ .LMH_SET := fun u hu => hticks u (List.mem_cons_of_mem _ hu)
      have h1 := timer_expired_not_joined P s t.1 t.2 ht
      have h2 := ih (step P s (Event.tick t.1 t.2)) hts
      simp only [List.map_cons, run_cons]
      simp only [step] at h2 ⊢
      rw [h2.1, h2.2.1, h2.2.2]
      exact h1

/-- Witness for C1: a not-joined state and three not-joined ticks. -/
theorem C1_not_joined_submits_nothing_witness :
    (calls (added initial (send_lora_frame 2 initial .LMH_ONGOING .LMH_SUCCESS)) =
        [.lmh_join_status_get] ∧
      submissions (send_lora_frame 2 initial .LMH_ONGOING .LMH_SUCCESS).trace =
        submissions initial.trace ∧
      (send_lora_frame 2 initial .LMH_ONGOING .LMH_SUCCESS).counter = initial.counter ∧
      (send_lora_frame 2 initial .LMH_ONGOING .LMH_SUCCESS).m_lora_app_data =
        initial.m_lora_app_data) ∧
    (submissions (run 2 initial
        ([(lmh_join_status.LMH_RESET, lmh_error_status.LMH_SUCCESS),
          (.LMH_ONGOING, .LMH_BUSY), (.LMH_ONGOING, .LMH_ERROR)].map
            fun t => Event.tick t.1 t.2)).trace = submissions initial.trace ∧
      (run 2 initial
        ([(lmh_join_status.LMH_RESET, lmh_error_status.LMH_SUCCESS),
          (.LMH_ONGOING, .LMH_BUSY), (.LMH_ONGOING, .LMH_ERROR)].map
            fun t => Event.tick t.1 t.2)).counter = initial.counter ∧
      (run 2 initial
        ([(lmh_join_status.LMH_RESET, lmh_error_status.LMH_SUCCESS),
          (.LMH_ONGOING, .LMH_BUSY), (.LMH_ONGOING, .LMH_ERROR)].map
            fun t => Event.tick t.1 t.2)).m_lora_app_data = initial.m_lora_app_data) :=
  C1_not_joined_submits_nothing 2 initial .LMH_ONGOING .LMH_SUCCESS (by decide)
    [(.LMH_RESET, .LMH_SUCCESS), (.LMH_ONGOING, .LMH_BUSY), (.LMH_ONGOING, .LMH_ERROR)]
    (by decide)

/-! ## C2 -/

/-- Claim C2: from the initial state (`counter = 0`), with the MAC reporting joined
and every send succeeding, `N` consecutive ticks make exactly `N` submissions, and
for every `k < N` the `k`-th tick makes exactly one: an unconfirmed frame on the
application data port whose payload is the single byte `k mod 100`. -/
theorem C2_joined_ticks_emit_counter (P N k : Nat) (hk : k < N) :
    (submissions (run P initial
        (List.replicate N (Event.tick .LMH_SET .LMH_SUCCESS))).trace).length = N ∧
    (submissions (run P initial
        (List.replicate N (Event.tick .LMH_SET .LMH_SUCCESS))).trace)[k]? =
      some (Call.lmh_send P 1 [k % 100] .LMH_UNCONFIRMED_MSG) ∧
    submissions (added
        (run P initial (List.replicate k (Event.tick .LMH_SET .LMH_SUCCESS)))
        (step P (run P initial (List.replicate k (Event.tick .LMH_SET .LMH_SUCCESS)))
          (Event.tick .LMH_SET .LMH_SUCCESS))) =
      [Call.lmh_send P 1 [k % 100] .LMH_UNCONFIRMED_MSG] := by
  have h0 : initial.counter < 100 := by decide
  have hN := run_joined_ticks P initial .LMH_SUCCESS h0 N
  have hk' := run_joined_ticks P initial .LMH_SUCCESS h0 k
  have hi : initial.counter = 0 := rfl
  have ht : submissions initial.trace = [] := rfl
  rw [hi, ht] at hN hk'
  simp only [Nat.zero_add, List.nil_append] at hN hk'
  refine ⟨?_, ?_, ?_⟩
  · rw [hN.2]; simp
  · rw [hN.2]; simp [hk]
  · simp only [step]
    rw [added_of_trace _ _ _ (timer_expired_joined_trace P _ .LMH_SUCCESS), hk'.1]
    simp [submissions, calls, Call.isSend]

/-- Witness for C2: the 101st of 101 ticks (`k = 100`) emits the byte 0 again. -/
theorem C2_joined_ticks_emit_counter_witness :
    (submissions (run 2 initial
        (List.replicate 101 (Event.tick .LMH_SET .LMH_SUCCESS))).trace).length = 101 ∧
    (submissions (run 2 initial
        (List.replicate 101 (Event.tick .LMH_SET .LMH_SUCCESS))).trace)[100]? =
      some (Call.lmh_send 2 1 [0] .LMH_UNCONFIRMED_MSG) ∧
    submissions (added
        (run 2 initial (List.replicate 100 (Event.tick .LMH_SET .LMH_SUCCESS)))
        (step 2 (run 2 initial (List.replicate 100 (Event.tick .LMH_SET .LMH_SUCCESS)))
          (Event.tick .LMH_SET .LMH_SUCCESS))) =
      [Call.lmh_send 2 1 [0] .LMH_UNCONFIRMED_MSG] :=
  C2_joined_ticks_emit_counter 2 101 100 (by decide)

/-! ## C3 -/

/-- Claim C3: for every downlink, `lorawan_rx_handler` adds either nothing or exactly
one call, a class request; it requests class `c` exactly when the port is 3, the
payload length is 1 and the payload byte is the selector of `c` (0 for A, 1 for B,
2 for C), and it adds nothing exactly when the port is not 3, the length is not 1
or the byte is above 2; in particular it adds nothing on the application data
port, whose case label differs from 3.  It makes no submission and leaves `counter`, the uplink
frame and the timer as they were. -/
theorem C3_rx_class_request_iff (P : Nat) (s : State) (d : lmh_app_data_t) :
    (lorawan_rx_handler P s d).trace = s.trace ++ added s (lorawan_rx_handler P s d) ∧
    (∀ c, calls (added s (lorawan_rx_handler P s d)) = [.lmh_class_request c] ↔
      d.port = 3 ∧ d.buffsize = 1 ∧ d.buffer 0 = selectorOf c) ∧
    (calls (added s (lorawan_rx_handler P s d)) = [] ↔
      ¬ (d.port = 3 ∧ d.buffsize = 1 ∧ d.buffer 0 ≤ 2)) ∧
    (P ≠ 3 → d.port = P → calls (added s (lorawan_rx_handler P s d)) = []) ∧
    classRequests (added s (lorawan_rx_handler P s d)) =
      calls (added s (lorawan_rx_handler P s d)) ∧
    submissions (lorawan_rx_handler P s d).trace = submissions s.trace ∧
    (lorawan_rx_handler P s d).counter = s.counter ∧
    (lorawan_rx_handler P s d).m_lora_app_data = s.m_lora_app_data ∧
    (lorawan_rx_handler P s d).appTimer = s.appTimer := by
  by_cases h : d.port = 3 ∧ d.buffsize = 1 ∧ d.buffer 0 ≤ 2
  · obtain ⟨c, hc⟩ := selectorOf_surj _ h.2.2
    have hreq := lorawan_rx_handler_request P s d c ⟨h.1, h.2.1, hc⟩
    rw [hreq, added_lmh_class_request]
    refine ⟨by simp [lmh_class_request, State.log], ?_, ?_, ?_, ?_, ?_, ?_, ?_, ?_⟩
    · intro c'
      constructor
      · intro hcc
        have : c = c' := by simpa [calls] using hcc
        exact ⟨h.1, h.2.1, this ▸ hc⟩
      · intro hcc
        have : c = c' := selectorOf_injective _ _ (hc ▸ hcc.2.2)
        simp [calls, this]
    · simp [calls, h]
    · intro hP hport
      exact absurd (hport ▸ h.1) hP
    · simp [classRequests, calls, Call.isClassRequest]
    · simp [lmh_class_request, State.log, submissions, calls, Call.isSend]
    · rfl
    · rfl
    · rfl
  · rw [lorawan_rx_handler_skip P s d h, added_self]
    refine ⟨by simp, ?_, ?_, fun _ _ => rfl, rfl, rfl, rfl, rfl, rfl⟩
    · intro c
      constructor
      · intro hcc
        simp [calls] at hcc
      · intro hcc
        exact absurd ⟨hcc.1, hcc.2.1, hcc.2.2 ▸ selectorOf_le c⟩ h
    · simp [calls, h]

/-- Witness for C3: on port 3 the payload [1] gives exactly the request for class B
and the payload [9] gives no call at all; on the application data port 2 the
payload [1] gives no call either. -/
theorem C3_rx_class_request_iff_witness :
    calls (added initial (lorawan_rx_handler 2 initial (downlink_frame 3 [1] 0 0))) =
      [.lmh_class_request .CLASS_B] ∧
    calls (added initial (lorawan_rx_handler 2 initial (downlink_frame 3 [9] 0 0))) = [] ∧
    calls (added initial (lorawan_rx_handler 2 initial (downlink_frame 2 [1] 0 0))) = [] :=
  ⟨((C3_rx_class_request_iff 2 initial (downlink_frame 3 [1] 0 0)).2.1 .CLASS_B).mpr
      ⟨rfl, rfl, rfl⟩,
    (C3_rx_class_request_iff 2 initial (downlink_frame 3 [9] 0 0)).2.2.1.mpr (by decide),
    (C3_rx_class_request_iff 2 initial (downlink_frame 2 [1] 0 0)).2.2.2.1 (by decide) rfl⟩

/-! ## C4 -/

/-- Claim C4, refuted as stated: the program keeps no device class.  The state
after `lorawan_confirm_class_handler` is the same for class C and for class A, so
nothing read from the state after the handler can equal the confirmed class for
every class. -/
theorem C4_no_stored_class :
    lorawan_confirm_class_handler 2 initial .CLASS_C .LMH_SUCCESS =
      lorawan_confirm_class_handler 2 initial .CLASS_A .LMH_SUCCESS ∧
    ¬ ∃ read : State → DeviceClass_t,
      ∀ X, read (lorawan_confirm_class_handler 2 initial X .LMH_SUCCESS) = X := by
  refine ⟨rfl, ?_⟩
  rintro ⟨read, h⟩
  have hA := h .CLASS_A
  have hC := h .CLASS_C
  have hAC : lorawan_confirm_class_handler 2 initial .CLASS_C .LMH_SUCCESS =
      lorawan_confirm_class_handler 2 initial .CLASS_A .LMH_SUCCESS := rfl
  rw [hAC, hA] at hC
  exact absurd hC (by decide)

/-- Claim C4, amended: for every class `X`, every prior state and every result of
the send, `lorawan_confirm_class_handler` adds exactly one call, the submission of
an unconfirmed zero-length frame on the application data port; it leaves `counter`
and the timer as they were, and the state after it is the same for every `X`: the
class is not stored. -/
theorem C4_confirm_class_sends_empty_frame (P : Nat) (s : State) (X : DeviceClass_t)
    (r : lmh_error_status) :
    (lorawan_confirm_class_handler P s X r).trace =
      s.trace ++ added s (lorawan_confirm_class_handler P s X r) ∧
    calls (added s (lorawan_confirm_class_handler P s X r)) =
      [.lmh_send P 0 [] .LMH_UNCONFIRMED_MSG] ∧
    submissions (added s (lorawan_confirm_class_handler P s X r)) =
      [.lmh_send P 0 [] .LMH_UNCONFIRMED_MSG] ∧
    (lorawan_confirm_class_handler P s X r).m_lora_app_data.buffsize = 0 ∧
    (lorawan_confirm_class_handler P s X r).m_lora_app_data.port = P ∧
    (lorawan_confirm_class_handler P s X r).counter = s.counter ∧
    (lorawan_confirm_class_handler P s X r).appTimer = s.appTimer ∧
    lorawan_confirm_class_handler P s X r =
      lorawan_confirm_class_handler P s .CLASS_A .LMH_SUCCESS := by
  simp [lorawan_confirm_class_handler_eq, added, calls, submissions, Call.isSend]

/-! ## C5 -/

/-- Claim C5: for every state, every join status and every result of the send,
`tx_lora_periodic_handler` first sets the timer period to 30000 ms and starts the
timer, and only then begins the send attempt: the status query and the submission,
if any, are made with the timer already armed.  When the handler returns the
period is 30000 ms and the timer is armed. -/
theorem C5_tick_rearms_before_send (P : Nat) (s : State) (js : lmh_join_status)
    (r : lmh_error_status) :
    (tx_lora_periodic_handler P s js r).trace =
      s.trace ++ added s (tx_lora_periodic_handler P s js r) ∧
    calls (added s (tx_lora_periodic_handler P s js r)) =
      [.TimerSetValue 30000, .TimerStart, .lmh_join_status_get] ++
        (if js = .LMH_SET then [.lmh_send P 1 [s.counter] .LMH_UNCONFIRMED_MSG] else []) ++
        [.TimerStart] ∧
    (∀ e ∈ added s (tx_lora_periodic_handler P s js r),
      e.call = .lmh_join_status_get ∨ e.call.isSend = true → e.armed = true) ∧
    (tx_lora_periodic_handler P s js r).appTimer.value = 30000 ∧
    (tx_lora_periodic_handler P s js r).appTimer.armed = true := by
  by_cases hjs : js = .LMH_SET
  · subst hjs
    simp [tx_lora_periodic_handler_joined, added, calls, Call.isSend, LORAWAN_APP_TX_DUTYCYCLE]
  · simp [tx_lora_periodic_handler_not_joined _ _ _ _ hjs, added, calls, Call.isSend,
      LORAWAN_APP_TX_DUTYCYCLE, hjs]

/-! ## C6 -/

/-- Claim C6: for every prior state, `lorawan_has_joined_handler` adds exactly three
calls, in this order: one class request for class A, `TimerSetValue` with 30000 ms,
one `TimerStart`.  It makes no submission and leaves `counter` and the uplink frame
as they were; afterwards the period is 30000 ms and the timer is armed. -/
theorem C6_joined_requests_A_then_arms (s : State) :
    (lorawan_has_joined_handler s).trace =
      s.trace ++ added s (lorawan_has_joined_handler s) ∧
    calls (added s (lorawan_has_joined_handler s)) =
      [.lmh_class_request .CLASS_A, .TimerSetValue 30000, .TimerStart] ∧
    submissions (lorawan_has_joined_handler s).trace = submissions s.trace ∧
    (lorawan_has_joined_handler s).counter = s.counter ∧
    (lorawan_has_joined_handler s).m_lora_app_data = s.m_lora_app_data ∧
    (lorawan_has_joined_handler s).appTimer.value = 30000 ∧
    (lorawan_has_joined_handler s).appTimer.armed = true := by
  simp [lorawan_has_joined_handler_eq, added, calls, submissions, Call.isSend,
    LORAWAN_APP_TX_DUTYCYCLE]

theorem marks_append (a b : List Entry) : marks (a ++ b) = marks a ++ marks b := by
  simp [marks]

theorem timer_expired_marks (P : Nat) (s : State) (js : lmh_join_status)
    (r : lmh_error_status) :
    marks (timer_expired P s js r).trace =
      marks s.trace ++ expectedMarks [.tick js r] := by
  by_cases hjs : js = .LMH_SET
  · subst hjs
    simp [timer_expired, tx_lora_periodic_handler_joined, marks, Entry.mark, expectedMarks]
  · rw [timer_expired, tx_lora_periodic_handler_not_joined _ _ _ _ hjs]
    cases js
    · simp [marks, Entry.mark, expectedMarks]
    · simp [marks, Entry.mark, expectedMarks]
    · exact absurd rfl hjs

theorem step_marks (P : Nat) (s : State) (e : Event) (he : e.isJoined = false)
    (ha : s.appTimer.armed = true) :
    marks (step P s e).trace = marks s.trace ++ expectedMarks [e] := by
  cases e with
  | joined => simp [Event.isJoined] at he
  | downlink d =>
    simp only [step, expectedMarks, List.append_nil]
    rcases lorawan_rx_handler_cases P s d with h | ⟨c, h⟩
    · rw [h]
    · rw [h]
      simp [lmh_class_request, State.log, marks, Entry.mark]
  | classConfirmed c r =>
    simp [step, expectedMarks, lorawan_confirm_class_handler_eq, marks, Entry.mark, ha]
  | tick js r =>
    simp only [step]
    exact timer_expired_marks P s js r

theorem expectedMarks_cons (e : Event) (evs : List Event) :
    expectedMarks (e :: evs) = expectedMarks [e] ++ expectedMarks evs := by
  cases e with
  | joined => simp [expectedMarks]
  | downlink d => simp [expectedMarks]
  | classConfirmed c r => simp [expectedMarks]
  | tick js r => cases js <;> simp [expectedMarks]

theorem run_marks (P : Nat) (evs : List Event) (s : State)
    (hevs : ∀ e ∈ evs, e.isJoined = false) (ha : s.appTimer.armed = true) :
    marks (run P s evs).trace = marks s.trace ++ expectedMarks evs := by
  induction evs generalizing s with
  | nil => simp [run_nil, expectedMarks]
  | cons e evs ih =>
    have he := hevs e (List.mem_cons_self _ _)
    have h1 := step_marks P s e he ha
    have h2 := ih (step P s e) (fun u hu => hevs u (List.mem_cons_of_mem _ hu))
      (step_startFlags P s e he ha).2
    rw [run_cons, h2, h1, expectedMarks_cons e evs, List.append_assoc]

/-! ## C7 -/

/-- Claim C7, refuted as stated: after the join, one tick issues two `TimerStart`
calls, and the second one finds the timer already armed by the first. -/
theorem C7_tick_starts_armed_timer :
    startFlags (added (run 2 initial [.joined])
        (run 2 initial [.joined, .tick .LMH_SET .LMH_SUCCESS])) = [false, true] ∧
    ¬ (∀ b ∈ startFlags (run 2 initial [.joined, .tick .LMH_SET .LMH_SUCCESS]).trace,
        b = false) := by
  decide

/-- Claim C7, amended: in every execution that begins in the initial state with one
join-completed callback and continues with timer expiries, downlinks and class
confirmations, the join issues one `TimerStart`, on a timer that is not armed;
every tick issues exactly two: the first before the send attempt, on the timer
that has just expired, and the second after the send attempt (the status query
and, when joined, the submission, both made with the timer armed), on the timer
the first one armed; downlinks and class confirmations issue none; and the timer
is armed at the end.  From any state a single tick makes exactly the calls
`TimerSetValue 30000`, `TimerStart`, the send attempt, `TimerStart`, in this order. -/
theorem C7_timer_start_flags (P : Nat) (evs : List Event)
    (hevs : ∀ e ∈ evs, e.isJoined = false) :
    startFlags (run P initial (.joined :: evs)).trace = false :: expectedStartFlags evs ∧
    (run P initial (.joined :: evs)).appTimer.armed = true ∧
    (∀ (s : State) (js : lmh_join_status) (r : lmh_error_status),
      startFlags (added s (timer_expired P s js r)) = [false, true]) ∧
    marks (run P initial (.joined :: evs)).trace = .start false :: expectedMarks evs ∧
    callsArmed (added initial (step P initial .joined)) =
      [(.lmh_class_request .CLASS_A, false), (.TimerSetValue 30000, false),
       (.TimerStart, false)] ∧
    (∀ (s : State) (js : lmh_join_status) (r : lmh_error_status),
      callsArmed (added s (timer_expired P s js r)) =
        [(.TimerSetValue 30000, false), (.TimerStart, false),
         (.lmh_join_status_get, true)] ++
        (if js = .LMH_SET then [(.lmh_send P 1 [s.counter] .LMH_UNCONFIRMED_MSG, true)]
          else []) ++
        [(.TimerStart, true)]) := by
  have hj : (step P initial .joined).appTimer.armed = true := by
    simp [step, lorawan_has_joined_handler_eq]
  refine ⟨?_, ?_, ?_, ?_, ?_, ?_⟩
  · have h := run_startFlags P evs (step P initial .joined) hevs hj
    rw [run_cons, h.1]
    simp [step, lorawan_has_joined_handler_eq, startFlags, Call.isTimerStart, initial,
      timers_init, static_init]
  · rw [run_cons]
    exact (run_startFlags P evs (step P initial .joined) hevs hj).2
  · intro s js r
    by_cases hjs : js = .LMH_SET
    · subst hjs
      simp [timer_expired, tx_lora_periodic_handler_joined, added, startFlags,
        Call.isTimerStart]
    · simp [timer_expired, tx_lora_periodic_handler_not_joined _ _ _ _ hjs, added, startFlags,
        Call.isTimerStart]
  · rw [run_cons, run_marks P evs (step P initial .joined) hevs hj]
    simp [step, lorawan_has_joined_handler_eq, marks, Entry.mark, initial, timers_init,
      static_init]
  · simp [step, lorawan_has_joined_handler_eq, added, callsArmed, initial, timers_init,
      static_init, LORAWAN_APP_TX_DUTYCYCLE]
  · intro s js r
    by_cases hjs : js = .LMH_SET
    · subst hjs
      simp [timer_expired, tx_lora_periodic_handler_joined, added, callsArmed,
        LORAWAN_APP_TX_DUTYCYCLE]
    · simp [timer_expired, tx_lora_periodic_handler_not_joined _ _ _ _ hjs, added, callsArmed,
        LORAWAN_APP_TX_DUTYCYCLE, hjs]

/-- Witness for C7: a join followed by a tick, a class-switch downlink, a class
confirmation and a tick whose send reports busy. -/
theorem C7_timer_start_flags_witness :
    startFlags (run 2 initial (.joined ::
      [.tick .LMH_SET .LMH_SUCCESS, .downlink (downlink_frame 3 [2] 0 0),
       .classConfirmed .CLASS_C .LMH_SUCCESS, .tick .LMH_SET .LMH_BUSY])).trace =
      false :: expectedStartFlags
        [.tick .LMH_SET .LMH_SUCCESS, .downlink (downlink_frame 3 [2] 0 0),
         .classConfirmed .CLASS_C .LMH_SUCCESS, .tick .LMH_SET .LMH_BUSY] ∧
    (run 2 initial (.joined ::
      [.tick .LMH_SET .LMH_SUCCESS, .downlink (downlink_frame 3 [2] 0 0),
       .classConfirmed .CLASS_C .LMH_SUCCESS, .tick .LMH_SET .LMH_BUSY])).appTimer.armed =
      true ∧
    (∀ (s : State) (js : lmh_join_status) (r : lmh_error_status),
      startFlags (added s (timer_expired 2 s js r)) = [false, true]) ∧
    marks (run 2 initial (.joined ::
      [.tick .LMH_SET .LMH_SUCCESS, .downlink (downlink_frame 3 [2] 0 0),
       .classConfirmed .CLASS_C .LMH_SUCCESS, .tick .LMH_SET .LMH_BUSY])).trace =
      [.start false,
       .start false, .query true, .send true, .start true,
       .send true,
       .start false, .query true, .send true, .start true] ∧
    callsArmed (added initial (step 2 initial .joined)) =
      [(.lmh_class_request .CLASS_A, false), (.TimerSetValue 30000, false),
       (.TimerStart, false)] ∧
    (∀ (s : State) (js : lmh_join_status) (r : lmh_error_status),
      callsArmed (added s (timer_expired 2 s js r)) =
        [(.TimerSetValue 30000, false), (.TimerStart, false),
         (.lmh_join_status_get, true)] ++
        (if js = .LMH_SET then [(.lmh_send 2 1 [s.counter] .LMH_UNCONFIRMED_MSG, true)]
          else []) ++
        [(.TimerStart, true)]) :=
  C7_timer_start_flags 2
    [.tick .LMH_SET .LMH_SUCCESS, .downlink (downlink_frame 3 [2] 0 0),
     .classConfirmed .CLASS_C .LMH_SUCCESS, .tick .LMH_SET .LMH_BUSY]
    (by simp [Event.isJoined])

/-! ## C8 -/

/-- Claim C8: from the initial state, after the join-completed callback, the
downlink with port 3 and payload [2] adds exactly one call, the request for class
C; the confirmation of class C then adds exactly one call, the submission of an
unconfirmed empty frame on the application data port, and `counter` is still 0;
the next tick submits exactly one frame, unconfirmed, on the application data
port, with the single byte 0. -/
theorem C8_class_switch_scenario (P : Nat) (rssi snr : Int) (r1 r2 : lmh_error_status) :
    calls (added (run P initial [.joined])
      (run P initial [.joined, .downlink (downlink_frame 3 [2] rssi snr)])) =
      [.lmh_class_request .CLASS_C] ∧
    calls (added (run P initial [.joined, .downlink (downlink_frame 3 [2] rssi snr)])
      (run P initial [.joined, .downlink (downlink_frame 3 [2] rssi snr),
        .classConfirmed .CLASS_C r1])) =
      [.lmh_send P 0 [] .LMH_UNCONFIRMED_MSG] ∧
    (run P initial [.joined, .downlink (downlink_frame 3 [2] rssi snr),
        .classConfirmed .CLASS_C r1]).counter = 0 ∧
    calls (added
      (run P initial [.joined, .downlink (downlink_frame 3 [2] rssi snr),
        .classConfirmed .CLASS_C r1])
      (run P initial [.joined, .downlink (downlink_frame 3 [2] rssi snr),
        .classConfirmed .CLASS_C r1, .tick .LMH_SET r2])) =
      [.TimerSetValue 30000, .TimerStart, .lmh_join_status_get,
       .lmh_send P 1 [0] .LMH_UNCONFIRMED_MSG, .TimerStart] := by
  refine ⟨rfl, rfl, rfl, rfl⟩

/-! ## C9 -/

/-- Claim C9, refuted as stated: in the joined initial state (`counter = 0`) the
submission is made when `counter` is already 1, so the counter is not set after
the submission. -/
theorem C9_counter_set_before_submission :
    added initial (send_lora_frame 2 initial .LMH_SET .LMH_SUCCESS) =
      [⟨.lmh_join_status_get, 0, false⟩,
       ⟨.lmh_send 2 1 [0] .LMH_UNCONFIRMED_MSG, 1, false⟩] ∧
    ¬ (∀ e ∈ added initial (send_lora_frame 2 initial .LMH_SET .LMH_SUCCESS),
        e.call.isSend = true → e.counter = initial.counter) := by
  decide

/-- Claim C9, amended: for every joined state with `counter = c < 100` and every
result `r` of the send, `send_lora_frame` adds exactly two calls, the status query
and one submission of the unconfirmed 1-byte frame `[c]` on the application data
port; `counter` is set to `(c + 1) mod 100` before the submission is made, whatever
`r` is; the state after the function is the same for every `r`, and no other call
(retry, join, further send, class request) follows. -/
theorem C9_increment_unconditional (P : Nat) (s : State) (r : lmh_error_status)
    (hc : s.counter < 100) :
    added s (send_lora_frame P s .LMH_SET r) =
      [⟨.lmh_join_status_get, s.counter, s.appTimer.armed⟩,
       ⟨.lmh_send P 1 [s.counter] .LMH_UNCONFIRMED_MSG, (s.counter + 1) % 100,
         s.appTimer.armed⟩] ∧
    (send_lora_frame P s .LMH_SET r).trace =
      s.trace ++ added s (send_lora_frame P s .LMH_SET r) ∧
    (send_lora_frame P s .LMH_SET r).counter = (s.counter + 1) % 100 ∧
    (send_lora_frame P s .LMH_SET r).m_lora_app_data.port = P ∧
    (send_lora_frame P s .LMH_SET r).m_lora_app_data.buffsize = 1 ∧
    (send_lora_frame P s .LMH_SET r).m_lora_app_data.buffer 0 = s.counter ∧
    (send_lora_frame P s .LMH_SET r).appTimer = s.appTimer ∧
    send_lora_frame P s .LMH_SET r = send_lora_frame P s .LMH_SET .LMH_SUCCESS := by
  have hn := next_counter_mod s.counter hc
  simp [send_lora_frame_joined, added, hn]

/-- Witness for C9: the initial state, with the send reporting an error. -/
theorem C9_increment_unconditional_witness :
    added initial (send_lora_frame 2 initial .LMH_SET .LMH_ERROR) =
      [⟨.lmh_join_status_get, initial.counter, initial.appTimer.armed⟩,
       ⟨.lmh_send 2 1 [initial.counter] .LMH_UNCONFIRMED_MSG, (initial.counter + 1) % 100,
         initial.appTimer.armed⟩] ∧
    (send_lora_frame 2 initial .LMH_SET .LMH_ERROR).trace =
      initial.trace ++ added initial (send_lora_frame 2 initial .LMH_SET .LMH_ERROR) ∧
    (send_lora_frame 2 initial .LMH_SET .LMH_ERROR).counter = (initial.counter + 1) % 100 ∧
    (send_lora_frame 2 initial .LMH_SET .LMH_ERROR).m_lora_app_data.port = 2 ∧
    (send_lora_frame 2 initial .LMH_SET .LMH_ERROR).m_lora_app_data.buffsize = 1 ∧
    (send_lora_frame 2 initial .LMH_SET .LMH_ERROR).m_lora_app_data.buffer 0 =
      initial.counter ∧
    (send_lora_frame 2 initial .LMH_SET .LMH_ERROR).appTimer = initial.appTimer ∧
    send_lora_frame 2 initial .LMH_SET .LMH_ERROR =
      send_lora_frame 2 initial .LMH_SET .LMH_SUCCESS :=
  C9_increment_unconditional 2 initial .LMH_ERROR (by decide)

/-! ## C10 -/

/-- Claim C10: in every state reached from the initial state by any sequence of
join-completed, downlink, class-confirmed and timer-expiry events, with any join
status and any send result in each of them, `counter` is below 100, the frame size
is 0 or 1 and so at most `LORAWAN_APP_DATA_BUFF_SIZE = 64`, and no store has fallen
outside the payload array. -/
theorem C10_counter_and_size_bounds (P : Nat) (evs : List Event) :
    (run P initial evs).counter < 100 ∧
    ((run P initial evs).m_lora_app_data.buffsize = 0 ∨
      (run P initial evs).m_lora_app_data.buffsize = 1) ∧
    (run P initial evs).m_lora_app_data.buffsize ≤ LORAWAN_APP_DATA_BUFF_SIZE ∧
    LORAWAN_APP_DATA_BUFF_SIZE = 64 ∧
    (run P initial evs).oob = false := by
  have h0 : Inv initial := ⟨by decide, Or.inl rfl, rfl⟩
  obtain ⟨hc, hb, ho⟩ := run_Inv P evs initial h0
  refine ⟨hc, hb, ?_, rfl, ho⟩
  rcases hb with hb | hb <;> rw [hb] <;> decide

end LoRaWanApp
